import Mathlib

set_option autoImplicit false

/-!
Verification of the `google_review_generator` repository: a shallow embedding
of the place-ID extractors (`direct_review_url.py`, `app.py`), the background
task runner (`background_runner.py`) and the Chrome-profile batch machinery
(`chrome_profiles.py`), together with theorems settling the specification
claims about them.
-/

namespace GRG

/-! ## String-scanning primitives

Python string and `re` operations are modelled on `List Char`.  All
definitions are structurally recursive and computable so that concrete
inputs evaluate by `decide` / `rfl`.
-/

/-- Abbreviation: the character list of a string literal. -/
def sl (s : String) : List Char := s.toList

/-- Strip a literal pattern from the front of a character list, returning the
remainder; `none` when the list does not start with the pattern. -/
def stripLit : List Char → List Char → Option (List Char)
  | [], l => some l
  | _ :: _, [] => none
  | p :: ps, c :: cs => if p = c then stripLit ps cs else none

/-- Greedy `class+` of a regex: the maximal nonempty run of characters
satisfying `p`, together with the remainder.  Fails when the first character
does not satisfy `p` (the `+` requires at least one character). -/
def takeRun1 (p : Char → Bool) (l : List Char) : Option (List Char × List Char) :=
  match l.takeWhile p with
  | [] => none
  | r => some (r, l.dropWhile p)

/-- Leftmost search: try `step` at every suffix, leftmost starting position
first.  This mirrors Python `re.search` for the patterns in this file, whose
matches are fully determined by their starting position. -/
def firstMatch (step : List Char → Option (List Char)) : List Char → Option (List Char)
  | [] => step []
  | c :: cs =>
    match step (c :: cs) with
    | some r => some r
    | none => firstMatch step cs

/-- Everything after the first occurrence of the pattern `pat`; `none` when
`pat` does not occur. -/
def afterFirst (pat : List Char) : List Char → Option (List Char)
  | [] => if pat.isEmpty then some [] else none
  | c :: cs =>
    match stripLit pat (c :: cs) with
    | some rest => some rest
    | none => afterFirst pat cs

/-- Everything before the first occurrence of the pattern `pat` (the whole
list when `pat` does not occur). -/
def beforeFirst (pat : List Char) : List Char → List Char
  | [] => []
  | c :: cs =>
    match stripLit pat (c :: cs) with
    | some _ => []
    | none => c :: beforeFirst pat cs

/-- Substring containment, Python's `pat in s` for a nonempty `pat`. -/
def containsSub (pat l : List Char) : Bool := (afterFirst pat l).isSome

/-- Python `str.split(sep)` for a one-character separator `sep`. -/
def splitChar (sep : Char) : List Char → List (List Char)
  | [] => [[]]
  | c :: cs =>
    if c = sep then [] :: splitChar sep cs
    else
      match splitChar sep cs with
      | h :: t => (c :: h) :: t
      | [] => [[c]]

/-- Character class `[a-zA-Z0-9_-]` used by the `ChIJ` place-ID patterns. -/
def isChijChar (c : Char) : Bool := c.isAlphanum || c == '_' || c == '-'

/-- Character class `[0-9a-f]` (lowercase hexadecimal). -/
def isHexLower (c : Char) : Bool :=
  c.isDigit || (decide ('a' ≤ c) && decide (c ≤ 'f'))

/-- Character class `[0-9a-fA-F]`. -/
def isHexAny (c : Char) : Bool :=
  c.isDigit || (decide ('a' ≤ c) && decide (c ≤ 'f')) ||
    (decide ('A' ≤ c) && decide (c ≤ 'F'))

/-! ## `direct_review_url.py`: the pure-regex portion of
`extract_place_id_from_url` (lines 198-287)

Each regex of the source is embedded as a "match at this position" step
function, searched with `firstMatch`.
-/

/-- Pattern `[?&]place_id=([^&]+)` matched at one position. -/
def placeIdParamAt (l : List Char) : Option (List Char) :=
  match l with
  | [] => none
  | c :: cs =>
    if c == '?' || c == '&' then
      match stripLit (sl "place_id=") cs with
      | none => none
      | some rest =>
        match takeRun1 (fun c => c != '&') rest with
        | none => none
        | some (run, _) => some run
    else none

/-- Pattern `[?&]placeid=([^&]+)` matched at one position. -/
def placeidParamAt (l : List Char) : Option (List Char) :=
  match l with
  | [] => none
  | c :: cs =>
    if c == '?' || c == '&' then
      match stripLit (sl "placeid=") cs with
      | none => none
      | some rest =>
        match takeRun1 (fun c => c != '&') rest with
        | none => none
        | some (run, _) => some run
    else none

/-- First segment of the list that starts with `1s`, with the `1s` prefix
removed: the loop over `data_segments` in the source. -/
def find1sSegment : List (List Char) → Option (List Char)
  | [] => none
  | seg :: rest =>
    match stripLit (sl "1s") seg with
    | some tail => some tail
    | none => find1sSegment rest

/-- The `data=` branch of the source: `url.split('data=')[1].split('&')[0]`
split on `!`, returning the first `1s`-prefixed segment without its prefix.
Falls through (`none`) when `data=` does not occur or no segment starts
with `1s`. -/
def dataSegmentExtract (url : List Char) : Option (List Char) :=
  match afterFirst (sl "data=") url with
  | none => none
  | some rest =>
    let dataPart := beforeFirst (sl "data=") rest
    let dataPart := dataPart.takeWhile (fun c => c != '&')
    find1sSegment (splitChar '!' dataPart)

/-- Pattern `(ChIJ[a-zA-Z0-9_-]+)` matched at one position. -/
def chijAt (l : List Char) : Option (List Char) :=
  match stripLit (sl "ChIJ") l with
  | none => none
  | some rest =>
    match takeRun1 isChijChar rest with
    | none => none
    | some (run, _) => some (sl "ChIJ" ++ run)

/-- Pattern `!1s(0x[0-9a-f]+:[0-9a-f]+)` matched at one position. -/
def cidBangLowerAt (l : List Char) : Option (List Char) :=
  match stripLit (sl "!1s0x") l with
  | none => none
  | some r1 =>
    match takeRun1 isHexLower r1 with
    | none => none
    | some (h1, r2) =>
      match r2 with
      | ':' :: r3 =>
        match takeRun1 isHexLower r3 with
        | none => none
        | some (h2, _) => some (sl "0x" ++ h1 ++ ':' :: h2)
      | _ => none

/-- Pattern `!1s(ChIJ[a-zA-Z0-9_-]+)` matched at one position. -/
def chijBangAt (l : List Char) : Option (List Char) :=
  match stripLit (sl "!1s") l with
  | none => none
  | some rest => chijAt rest

/-- The pure-regex portion of `extract_place_id_from_url` in
`direct_review_url.py` (lines 198-287): the six URL patterns of the source
tried in source order, with no network or browser access.  `none` is the
case in which the source falls through to its redirect / Selenium
fallback. -/
def extract_place_id_from_url_regex (url : String) : Option String :=
  match firstMatch placeIdParamAt url.toList with
  | some r => some (String.mk r)
  | none =>
  match firstMatch placeidParamAt url.toList with
  | some r => some (String.mk r)
  | none =>
  match dataSegmentExtract url.toList with
  | some r => some (String.mk r)
  | none =>
  match firstMatch chijAt url.toList with
  | some r => some (String.mk r)
  | none =>
  match firstMatch cidBangLowerAt url.toList with
  | some r => some (String.mk r)
  | none =>
  match firstMatch chijBangAt url.toList with
  | some r => some (String.mk r)
  | none => none

/-- First `some` in a list of options: the value of a chain of pattern
attempts tried in order. -/
def firstSome {α : Type} : List (Option α) → Option α
  | [] => none
  | o :: os =>
    match o with
    | some a => some a
    | none => firstSome os

/-! ## `app.py`: `extract_place_id_from_url` (lines 66-112)

The web application has its own extractor with different patterns: bare
`place_id=` / `placeid=` parameters (no `[?&]` anchor), a two-sided CID
pattern, two rigid `data=` patterns, and a CID search inside the
`urllib.parse.urlparse` decomposition of the URL.
-/

/-- Pattern `place_id=([^&]+)` (no `[?&]` anchor) matched at one position. -/
def appPlaceIdAt (l : List Char) : Option (List Char) :=
  match stripLit (sl "place_id=") l with
  | none => none
  | some rest =>
    match takeRun1 (fun c => c != '&') rest with
    | none => none
    | some (run, _) => some run

/-- Pattern `placeid=([^&]+)` (no `[?&]` anchor) matched at one position. -/
def appPlaceidAt (l : List Char) : Option (List Char) :=
  match stripLit (sl "placeid=") l with
  | none => none
  | some rest =>
    match takeRun1 (fun c => c != '&') rest with
    | none => none
    | some (run, _) => some run

/-- Pattern `(0x[0-9a-fA-F]+:0x[0-9a-fA-F]+)` matched at one position
(whole match returned, as `match.group(0)` in the source). -/
def cidPairAt (l : List Char) : Option (List Char) :=
  match stripLit (sl "0x") l with
  | none => none
  | some r1 =>
    match takeRun1 isHexAny r1 with
    | none => none
    | some (h1, r2) =>
      match stripLit (sl ":0x") r2 with
      | none => none
      | some r3 =>
        match takeRun1 isHexAny r3 with
        | none => none
        | some (h2, _) => some (sl "0x" ++ h1 ++ sl ":0x" ++ h2)

/-- Pattern `data=!3m1!4b1!4m5!3m4!1s([^!]+)` matched at one position. -/
def dataPat1At (l : List Char) : Option (List Char) :=
  match stripLit (sl "data=!3m1!4b1!4m5!3m4!1s") l with
  | none => none
  | some rest =>
    match takeRun1 (fun c => c != '!') rest with
    | none => none
    | some (run, _) => some run

/-- Pattern `data=!3m1!4b1!4m[0-9]+!3m[0-9]+!1s([^!]+)` matched at one
position. -/
def dataPat2At (l : List Char) : Option (List Char) :=
  match stripLit (sl "data=!3m1!4b1!4m") l with
  | none => none
  | some r1 =>
    match takeRun1 Char.isDigit r1 with
    | none => none
    | some (_, r2) =>
      match stripLit (sl "!3m") r2 with
      | none => none
      | some r3 =>
        match takeRun1 Char.isDigit r3 with
        | none => none
        | some (_, r4) =>
          match stripLit (sl "!1s") r4 with
          | none => none
          | some r5 =>
            match takeRun1 (fun c => c != '!') r5 with
            | none => none
            | some (run, _) => some run

/-- Pattern `!1s(0x[0-9a-fA-F]+:0x[0-9a-fA-F]+)` matched at one position
(capture group returned). -/
def cidPairBangAt (l : List Char) : Option (List Char) :=
  match stripLit (sl "!1s") l with
  | none => none
  | some rest => cidPairAt rest

/-! ### Model of `urllib.parse.urlparse`

Modelled on CPython `urllib.parse.urlsplit` / `urlparse` (standard library,
not part of this repository) for inputs containing no ASCII tab, carriage
return or line feed: scheme split at the first `:` when the head is an
ASCII-alphabetic scheme name, netloc after `//` up to the first `/`, `?` or
`#` (a `ValueError` for mismatched square brackets, modelled as `none`),
fragment after the first `#`, query after the first `?`, and params after
the `;` of the last path segment for schemes that use params.
-/

structure UrlParts where
  scheme : List Char
  netloc : List Char
  path : List Char
  params : List Char
  query : List Char
  fragment : List Char
deriving DecidableEq

/-- Characters allowed after the first character of a URL scheme. -/
def schemeChar (c : Char) : Bool := c.isAlphanum || c == '+' || c == '-' || c == '.'

/-- Scheme split of `urlsplit`: `(scheme, rest)`. -/
def splitScheme (url : List Char) : List Char × List Char :=
  let pre := url.takeWhile (fun c => c != ':')
  if pre.length < url.length then
    match pre with
    | [] => ([], url)
    | c0 :: rest =>
      if c0.isAlpha && rest.all schemeChar then
        (pre.map Char.toLower, url.drop (pre.length + 1))
      else ([], url)
  else ([], url)

/-- Schemes for which `urlparse` splits params off the path. -/
def usesParams : List (List Char) :=
  [sl "", sl "ftp", sl "hdl", sl "prospero", sl "http", sl "imap", sl "https",
   sl "shttp", sl "rtsp", sl "rtspu", sl "sip", sl "sips", sl "mms", sl "sftp",
   sl "tel"]

/-- Params split of `urlparse`: split at the first `;` of the last `/`-separated
segment. -/
def splitParams (path : List Char) : List Char × List Char :=
  if path.contains '/' then
    let revSeg := (path.reverse.takeWhile (fun c => c != '/')).reverse
    let pre := path.take (path.length - revSeg.length)
    if revSeg.contains ';' then
      (pre ++ revSeg.takeWhile (fun c => c != ';'),
       (revSeg.dropWhile (fun c => c != ';')).drop 1)
    else (path, [])
  else
    if path.contains ';' then
      (path.takeWhile (fun c => c != ';'), (path.dropWhile (fun c => c != ';')).drop 1)
    else (path, [])

/-- Model of `urllib.parse.urlparse`; `none` models the `ValueError` raised
for mismatched square brackets in the netloc. -/
def pyUrlparse (url : List Char) : Option UrlParts :=
  let (scheme, rest) := splitScheme url
  let (netlocOk, netloc, rest) :=
    match stripLit (sl "//") rest with
    | some tail =>
      let nl := tail.takeWhile (fun c => c != '/' && c != '?' && c != '#')
      (!((nl.contains '[') != (nl.contains ']')), nl,
       tail.dropWhile (fun c => c != '/' && c != '?' && c != '#'))
    | none => (true, [], rest)
  if netlocOk then
    let path1 := rest.takeWhile (fun c => c != '#')
    let fragment := (rest.dropWhile (fun c => c != '#')).drop 1
    let path2 := path1.takeWhile (fun c => c != '?')
    let query := (path1.dropWhile (fun c => c != '?')).drop 1
    if usesParams.contains scheme && path2.contains ';' then
      let (path3, params) := splitParams path2
      some ⟨scheme, netloc, path3, params, query, fragment⟩
    else
      some ⟨scheme, netloc, path2, [], query, fragment⟩
  else none

/-- The final `try` block of the `app.py` extractor: parse the URL, and when
`google.com/maps` occurs in `netloc + path`, search `path + '?' + query` for
the `!1s`-anchored CID pattern.  Any exception (the bracket `ValueError`)
yields `none`. -/
def parsedCidSearch (url : List Char) : Option (List Char) :=
  match pyUrlparse url with
  | none => none
  | some p =>
    if containsSub (sl "google.com/maps") (p.netloc ++ p.path) then
      firstMatch cidPairBangAt (p.path ++ '?' :: p.query)
    else none

/-- `extract_place_id_from_url` from `app.py` (lines 66-112). -/
def app_extract_place_id_from_url (url : String) : Option String :=
  match firstMatch appPlaceIdAt url.toList with
  | some r => some (String.mk r)
  | none =>
  match firstMatch appPlaceidAt url.toList with
  | some r => some (String.mk r)
  | none =>
  match firstMatch cidPairAt url.toList with
  | some r => some (String.mk r)
  | none =>
  match firstMatch dataPat1At url.toList with
  | some r => some (String.mk r)
  | none =>
  match firstMatch dataPat2At url.toList with
  | some r => some (String.mk r)
  | none =>
  match parsedCidSearch url.toList with
  | some r => some (String.mk r)
  | none => none

/-! ## `background_runner.py`

The task runner manipulates JSON files `background_tasks/{task_id}.json`.
A task record is embedded as `TaskStatus` (the `messages` key, added only by
`update_task_progress`, is `none` while absent).  File contents are embedded
as `FileState`; writes are recorded explicitly.  Timestamps
(`datetime.now().isoformat()`) are parameters, Python function calls and
their raised exceptions are an `Except` oracle parameter.
-/

structure ErrorInfo where
  message : String
  traceback : String
deriving DecidableEq

structure TaskStatus where
  task_id : String
  status : String
  start_time : String
  end_time : Option String
  result : Option String
  error : Option ErrorInfo
  progress : Nat
  messages : Option (List (String × String))
deriving DecidableEq

/-- Path of a task's status file: `os.path.join("background_tasks", f"{task_id}.json")`. -/
def task_file (taskId : String) : String := "background_tasks/" ++ taskId ++ ".json"

/-- The `module_name_mappings` fallback of `run_function_and_update_status`. -/
def default_module_for (funcName : String) : Option String :=
  if funcName == "post_review" then some "simple_review"
  else if funcName == "run_batch_reviews" then some "chrome_profiles"
  else none

/-- Module selection of `run_function_and_update_status`: an explicit truthy
`module_name` wins, otherwise the mapping decides; `none` is the
`ImportError` raised when the mapping has no entry. -/
def resolve_module (moduleName : Option String) (funcName : String) : Option String :=
  match moduleName with
  | some m => if m = "" then default_module_for funcName else some m
  | none => default_module_for funcName

/-- Combined import / attribute lookup / call of the task body.  `env m f a`
is the outcome of `getattr(importlib.import_module(m), f)(**a)`: a returned
value or a raised exception with its message and traceback.  `importTb` is
the traceback text of the `ImportError` raised when no module can be
determined. -/
def run_call {V A : Type} (env : String → String → A → Except ErrorInfo V)
    (importTb : String) (moduleName : Option String) (funcName : String)
    (args : A) : Except ErrorInfo V :=
  match resolve_module moduleName funcName with
  | some m => env m funcName args
  | none =>
    Except.error ⟨"Could not determine module for function: " ++ funcName, importTb⟩

/-- The initial record written by `run_function_and_update_status`. -/
def initial_task_status (taskId now1 : String) : TaskStatus :=
  { task_id := taskId, status := "running", start_time := now1,
    end_time := none, result := none, error := none, progress := 0,
    messages := none }

/-- `run_function_and_update_status` (lines 19-79): returns the list of
`(file, record)` writes it performs, in order, together with the returned
final record.  `pyStr` models Python `str` on the function's return value;
`now1` and `now2` are the two `datetime.now().isoformat()` readings. -/
def run_function_and_update_status {V A : Type}
    (env : String → String → A → Except ErrorInfo V) (importTb : String)
    (pyStr : V → String) (taskId : String) (moduleName : Option String)
    (funcName : String) (args : A) (now1 now2 : String) :
    List (String × TaskStatus) × TaskStatus :=
  let init := initial_task_status taskId now1
  let final :=
    match run_call env importTb moduleName funcName args with
    | Except.ok v =>
      { init with status := "completed", end_time := some now2,
                  result := some (pyStr v), progress := 100 }
    | Except.error e =>
      { init with status := "failed", end_time := some now2, error := some e }
  ([(task_file taskId, init), (task_file taskId, final)], final)

/-- The dictionary returned by `run_process_in_background`. -/
structure StartInfo where
  task_id : String
  status : String
  pid : Nat
deriving DecidableEq

/-- `run_process_in_background` (lines 81-96): spawns a daemon process
running `run_function_and_update_status` and returns at once.  `pid` models
the operating system's pid of the spawned process; the second component is
the spawned process's behaviour, which the caller does not wait for. -/
def run_process_in_background {V A : Type}
    (env : String → String → A → Except ErrorInfo V) (importTb : String)
    (pyStr : V → String) (pid : Nat) (taskId : String) (funcName : String)
    (args : A) (moduleName : Option String) (now1 now2 : String) :
    StartInfo × (List (String × TaskStatus) × TaskStatus) :=
  ({ task_id := taskId, status := "started", pid := pid },
   run_function_and_update_status env importTb pyStr taskId moduleName funcName
     args now1 now2)

/-- Content of one path in the model file system: absent, present but
unreadable / not valid JSON, or a parsed task record. -/
inductive FileState where
  | missing
  | unreadable
  | content (t : TaskStatus)
deriving DecidableEq

/-- The file system restricted to the task-status files. -/
def TaskFS : Type := String → FileState

/-- Overwrite one path. -/
def fsSet (fs : TaskFS) (name : String) (st : FileState) : TaskFS :=
  fun n => if n = name then st else fs n

/-- `get_task_status` (lines 130-143): `None` for a missing, unreadable or
malformed file, the parsed record otherwise; exceptions are swallowed by the
bare `except`. -/
def get_task_status (fs : TaskFS) (taskId : String) : Option TaskStatus :=
  match fs (task_file taskId) with
  | FileState.missing => none
  | FileState.unreadable => none
  | FileState.content t => some t

/-- The in-memory modification `update_task_progress` applies between its
read and its write: set `progress`, set `status` when truthy, append a
timestamped message when truthy (creating the `messages` key if absent). -/
def apply_task_update (progress : Nat) (status message : Option String)
    (now : String) (t : TaskStatus) : TaskStatus :=
  let t1 := { t with progress := progress }
  let t2 :=
    match status with
    | some s => if s = "" then t1 else { t1 with status := s }
    | none => t1
  match message with
  | some m =>
    if m = "" then t2
    else { t2 with messages := some (t2.messages.getD [] ++ [(now, m)]) }
  | none => t2

/-- `update_task_progress` (lines 98-128): `False` without touching the file
system when the file is missing or unreadable; otherwise the record is
rewritten in place.  `writeOk` models whether the final `json.dump`
succeeds; on failure the bare `except` returns `False` and the truncated
file is left unreadable. -/
def update_task_progress (fs : TaskFS) (writeOk : Bool) (taskId : String)
    (progress : Nat) (status message : Option String) (now : String) :
    Bool × TaskFS :=
  match fs (task_file taskId) with
  | FileState.missing => (false, fs)
  | FileState.unreadable => (false, fs)
  | FileState.content t =>
    if writeOk then
      (true, fsSet fs (task_file taskId)
        (FileState.content (apply_task_update progress status message now t)))
    else (false, fsSet fs (task_file taskId) FileState.unreadable)

/-! ### Interleaving model for the unsynchronized status file

Two concurrent read-modify-write updates of one task's file, each split into
its atomic read and atomic write exactly as `update_task_progress` performs
them (read the whole JSON file, modify in memory, rewrite the whole file,
with no lock or atomic rename in between).
-/

inductive RmwEvent where
  | read1
  | write1
  | read2
  | write2
deriving DecidableEq

structure RaceState where
  file : TaskStatus
  snap1 : Option TaskStatus
  snap2 : Option TaskStatus

/-- One atomic step: a read takes a snapshot of the file, a write stores the
update applied to the snapshot. -/
def rmwStep (u1 u2 : TaskStatus → TaskStatus) (s : RaceState) :
    RmwEvent → RaceState
  | RmwEvent.read1 => { s with snap1 := some s.file }
  | RmwEvent.write1 =>
    match s.snap1 with
    | some t => { s with file := u1 t }
    | none => s
  | RmwEvent.read2 => { s with snap2 := some s.file }
  | RmwEvent.write2 =>
    match s.snap2 with
    | some t => { s with file := u2 t }
    | none => s

/-- Final file content after executing a schedule of atomic events. -/
def rmwRun (u1 u2 : TaskStatus → TaskStatus) (events : List RmwEvent)
    (init : TaskStatus) : TaskStatus :=
  (events.foldl (rmwStep u1 u2) ⟨init, none, none⟩).file

/-! ## `chrome_profiles.py`

The profile configuration lives in `chrome_profiles.yaml`; every operation
loads it, modifies it and saves it back.  The persisted configuration is the
state here; `save_config` is modelled as succeeding, and timestamps and the
working directory are parameters.
-/

structure Profile where
  name : String
  path : String
  account : String
  created_at : String
deriving DecidableEq

inductive SettingValue where
  | int (n : Int)
  | bool (b : Bool)
deriving DecidableEq

structure Config where
  profiles : List Profile
  batch_settings : List (String × SettingValue)
deriving DecidableEq

/-- The `batch_settings` dictionary of `create_default_config`. -/
def default_batch_settings : List (String × SettingValue) :=
  [("delay_between_reviews", SettingValue.int 30),
   ("randomize_delay", SettingValue.bool true),
   ("max_random_delay", SettingValue.int 60),
   ("randomize_order", SettingValue.bool true)]

/-- `create_default_config`: an empty profile list with default batch
settings. -/
def create_default_config : Config := ⟨[], default_batch_settings⟩

/-- `add_profile` (lines 73-101): reject a duplicate name, otherwise append
one profile entry.  `now` is the `created_at` timestamp. -/
def add_profile (name path account now : String) (c : Config) : Bool × Config :=
  if c.profiles.any (fun p => p.name == name) then (false, c)
  else (true, { c with profiles := c.profiles ++ [⟨name, path, account, now⟩] })

/-- Remove the first profile with the given name (`enumerate` + `pop`). -/
def removeFirstProfile (name : String) : List Profile → List Profile
  | [] => []
  | p :: ps => if p.name == name then ps else p :: removeFirstProfile name ps

/-- `remove_profile` (lines 103-116). -/
def remove_profile (name : String) (c : Config) : Bool × Config :=
  if c.profiles.any (fun p => p.name == name) then
    (true, { c with profiles := removeFirstProfile name c.profiles })
  else (false, c)

/-- One entry of `accounts.yaml`; `username` is `account.get("username")`. -/
structure Account where
  username : Option String
deriving DecidableEq

/-- `f"profile_{username.split('@')[0]}"`. -/
def profile_name_for (username : String) : String :=
  "profile_" ++ String.mk (beforeFirst (sl "@") username.toList)

/-- One iteration of the account loop of `import_accounts_to_profiles`:
skip falsy usernames, otherwise `add_profile` and count successes. -/
def import_one (cwd now : String) (st : Nat × Config) (acc : Account) :
    Nat × Config :=
  match acc.username with
  | none => st
  | some u =>
    if u = "" then st
    else
      let pname := profile_name_for u
      let res := add_profile pname (cwd ++ "/chrome_profiles/" ++ pname) u now st.2
      (if res.1 then st.1 + 1 else st.1, res.2)

/-- `import_accounts_to_profiles` (lines 118-159) with the parsed
`accounts.yaml` contents as a parameter: create a profile per account and
report whether any succeeded. -/
def import_accounts_to_profiles (accounts : List Account) (cwd now : String)
    (c : Config) : Bool × Config :=
  let res := accounts.foldl (import_one cwd now) (0, c)
  (decide (0 < res.1), res.2)

/-- Python `dict` assignment on an association list: replace the value of an
existing key in place, or append a new key. -/
def dictSet (d : List (String × SettingValue)) (k : String) (v : SettingValue) :
    List (String × SettingValue) :=
  if d.any (fun kv => kv.1 == k) then
    d.map (fun kv => if kv.1 == k then (k, v) else kv)
  else d ++ [(k, v)]

/-- `update_batch_settings` (lines 161-169): Python `dict.update` on the
`batch_settings` dictionary. -/
def update_batch_settings (settings : List (String × SettingValue))
    (c : Config) : Bool × Config :=
  (true,
   { c with batch_settings :=
       settings.foldl (fun d kv => dictSet d kv.1 kv.2) c.batch_settings })

/-- One configuration-mutating operation of `chrome_profiles.py`. -/
inductive ProfileOp where
  | add (name path account now : String)
  | remove (name : String)
  | importAccounts (accounts : List Account) (cwd now : String)
  | updateSettings (settings : List (String × SettingValue))

/-- Effect of one operation on the persisted configuration. -/
def applyOp (c : Config) : ProfileOp → Config
  | ProfileOp.add n p a t => (add_profile n p a t c).2
  | ProfileOp.remove n => (remove_profile n c).2
  | ProfileOp.importAccounts accs cwd t => (import_accounts_to_profiles accs cwd t c).2
  | ProfileOp.updateSettings s => (update_batch_settings s c).2

/-- Effect of a sequence of operations. -/
def applyOps (ops : List ProfileOp) (c : Config) : Config := ops.foldl applyOp c

/-- No two profiles of the configuration share a name. -/
def namesUnique (c : Config) : Prop := (c.profiles.map Profile.name).Nodup

/-! ### `run_batch_reviews` (lines 171-259)

The loop posts one review per selected profile through `post_review`, an
external browser interaction modelled as a boolean oracle.  `shuffle` models
`random.shuffle`, `rng i` the `i`-th draw of the random number generator.
The `time.sleep` delays and the interactive profile-initialization prompt
change no selection and no counting and are not modelled.
-/

/-- The configuration fields `run_batch_reviews` reads, as loaded by
`load_config`. -/
structure BatchConfig where
  profiles : List Profile
  delay_between_reviews : Nat
  randomize_delay : Bool
  max_random_delay : Nat
  randomize_order : Bool

/-- `random.randint(a, b)` driven by one draw: a value in `[a, b]`. -/
def randint (a b seed : Nat) : Nat := a + seed % (b - a + 1)

/-- `random.choices([1,2,3,4,5], weights=[5,10,15,35,35])[0]` driven by one
draw: inverse-CDF sampling over the cumulative weights `5,15,30,65,100`. -/
def weighted_choice_rating (seed : Nat) : Nat :=
  if seed % 100 < 5 then 1
  else if seed % 100 < 15 then 2
  else if seed % 100 < 30 then 3
  else if seed % 100 < 65 then 4
  else 5

/-- The star rating determined for one review: `fixed_rating` under strategy
1, `random.randint(1, 5)` under strategy 2, the weighted choice otherwise.
`none` is Python `None`. -/
def determine_rating (ratingStrategy : Int) (fixedRating : Option Nat)
    (seed : Nat) : Option Nat :=
  if ratingStrategy = 1 then fixedRating
  else if ratingStrategy = 2 then some (randint 1 5 seed)
  else some (weighted_choice_rating seed)

/-- The profile selection of `run_batch_reviews`, before the optional
shuffle: `profiles[:num_reviews]` when `num_reviews <= len(profiles)`, else
`(profiles * (num_reviews // len(profiles) + 1))[:num_reviews]`. -/
def select_profiles (numReviews : Nat) (profiles : List Profile) : List Profile :=
  if numReviews ≤ profiles.length then profiles.take numReviews
  else
    (List.flatten (List.replicate (numReviews / profiles.length + 1) profiles)).take
      numReviews

/-- `run_batch_reviews`: `0` for an empty profile list; otherwise one
`post_review` attempt per selected profile (shuffled when
`randomize_order`), counting successes.  The `i`-th attempt's rating uses
the `i`-th random draw. -/
def run_batch_reviews (cfg : BatchConfig)
    (postReview : Profile → Option Nat → Bool)
    (shuffle : List Profile → List Profile) (rng : Nat → Nat)
    (numReviews : Nat) (ratingStrategy : Int) (fixedRating : Option Nat) : Nat :=
  if cfg.profiles.isEmpty then 0
  else
    let selected := select_profiles numReviews cfg.profiles
    let attempted := if cfg.randomize_order then shuffle selected else selected
    attempted.enum.countP fun ip =>
      postReview ip.2 (determine_rating ratingStrategy fixedRating (rng ip.1))

/-! ## `direct_review_url.py`: `get_direct_review_url` (lines 566-584) -/

/-- `get_direct_review_url`: the fixed write-review URL prefix followed by
the place ID, with no validation. -/
def get_direct_review_url (placeId : String) : String :=
  "https://search.google.com/local/writereview?placeid=" ++ placeId

/-! ## Theorems -/

/-- C9: `get_direct_review_url` is a pure, deterministic function of its
`place_id` argument: it returns exactly the write-review prefix followed by
the place ID (no validation), equal inputs give equal outputs, and distinct
inputs give distinct outputs. -/
theorem get_direct_review_url_spec :
    (∀ placeId : String, get_direct_review_url placeId =
      "https://search.google.com/local/writereview?placeid=" ++ placeId) ∧
    (∀ p q : String, p = q → get_direct_review_url p = get_direct_review_url q) ∧
    (∀ p q : String, get_direct_review_url p = get_direct_review_url q → p = q) := by
  refine ⟨fun _ => rfl, fun p q h => by rw [h], fun p q h => ?_⟩
  have hd := congrArg String.data h
  simp only [get_direct_review_url, String.data_append] at hd
  have h2 := List.append_cancel_left hd
  cases p; cases q
  exact congrArg String.mk h2

/-- Witness for C9 at concrete inputs. -/
theorem get_direct_review_url_spec_witness :
    get_direct_review_url "ChIJx" =
      "https://search.google.com/local/writereview?placeid=" ++ "ChIJx" ∧
    ("ChIJx" : String) = "ChIJx" :=
  ⟨get_direct_review_url_spec.1 "ChIJx",
   get_direct_review_url_spec.2.2 "ChIJx" "ChIJx" rfl⟩

/-- C6: `run_process_in_background` returns a dictionary with exactly the
keys `task_id` (the given id), `status` (always `"started"`) and `pid` (the
spawned process id), and the returned dictionary is independent of the
spawned task's function, arguments, timing and outcome — the caller does not
wait for the task. -/
theorem run_process_in_background_spec {V A : Type}
    (env : String → String → A → Except ErrorInfo V) (importTb : String)
    (pyStr : V → String) (pid : Nat) (taskId funcName : String) (args : A)
    (moduleName : Option String) (now1 now2 : String) :
    (run_process_in_background env importTb pyStr pid taskId funcName args
        moduleName now1 now2).1 =
      { task_id := taskId, status := "started", pid := pid } ∧
    (∀ (W B : Type) (env' : String → String → B → Except ErrorInfo W)
       (importTb' : String) (pyStr' : W → String) (args' : B) (now1' now2' : String),
      (run_process_in_background env' importTb' pyStr' pid taskId funcName args'
          moduleName now1' now2').1 =
        (run_process_in_background env importTb pyStr pid taskId funcName args
            moduleName now1 now2).1) :=
  ⟨rfl, fun _ _ _ _ _ _ _ _ => rfl⟩

/-- C1: `run_function_and_update_status` first writes the task's status file
with status `"running"`, progress `0`, a start time and null
end time / result / error; it then rewrites the same file so that the final
record has status `"completed"` with progress `100` and the stringified
return value when the call returns, or status `"failed"` with the exception
message and traceback when the call (or module lookup) raises; being a total
function of the call's outcome, it never propagates an exception from the
task body. -/
theorem run_function_and_update_status_spec {V A : Type}
    (env : String → String → A → Except ErrorInfo V) (importTb : String)
    (pyStr : V → String) (taskId : String) (moduleName : Option String)
    (funcName : String) (args : A) (now1 now2 : String) :
    (run_function_and_update_status env importTb pyStr taskId moduleName
        funcName args now1 now2).1 =
      [(task_file taskId, initial_task_status taskId now1),
       (task_file taskId,
        (run_function_and_update_status env importTb pyStr taskId moduleName
            funcName args now1 now2).2)] ∧
    (initial_task_status taskId now1).status = "running" ∧
    (initial_task_status taskId now1).progress = 0 ∧
    (initial_task_status taskId now1).start_time = now1 ∧
    (initial_task_status taskId now1).end_time = none ∧
    (initial_task_status taskId now1).result = none ∧
    (initial_task_status taskId now1).error = none ∧
    (∀ v, run_call env importTb moduleName funcName args = Except.ok v →
      (run_function_and_update_status env importTb pyStr taskId moduleName
          funcName args now1 now2).2 =
        { initial_task_status taskId now1 with
            status := "completed", end_time := some now2,
            result := some (pyStr v), progress := 100 }) ∧
    (∀ e, run_call env importTb moduleName funcName args = Except.error e →
      (run_function_and_update_status env importTb pyStr taskId moduleName
          funcName args now1 now2).2 =
        { initial_task_status taskId now1 with
            status := "failed", end_time := some now2, error := some e }) := by
  refine ⟨rfl, rfl, rfl, rfl, rfl, rfl, rfl, ?_, ?_⟩
  · intro v hv
    simp [run_function_and_update_status, hv]
  · intro e he
    simp [run_function_and_update_status, he]

/-- Witness for C1: a concrete successful task and a concrete failing
lookup. -/
theorem run_function_and_update_status_spec_witness :
    (run_function_and_update_status (fun _ _ _ => Except.ok "5") "tb" id "t1"
        none "post_review" () "T0" "T1").2 =
      { initial_task_status "t1" "T0" with
          status := "completed", end_time := some "T1",
          result := some (id "5"), progress := 100 } ∧
    (run_function_and_update_status (fun _ _ _ => Except.ok "5") "tb" id "t2"
        none "unknown_func" () "T0" "T1").2 =
      { initial_task_status "t2" "T0" with
          status := "failed", end_time := some "T1",
          error := some ⟨"Could not determine module for function: " ++
            "unknown_func", "tb"⟩ } :=
  ⟨(run_function_and_update_status_spec (fun _ _ _ => Except.ok "5") "tb" id
      "t1" none "post_review" () "T0" "T1").2.2.2.2.2.2.2.1 "5" rfl,
   (run_function_and_update_status_spec (fun _ _ _ => Except.ok "5") "tb" id
      "t2" none "unknown_func" () "T0" "T1").2.2.2.2.2.2.2.2
     ⟨"Could not determine module for function: " ++ "unknown_func", "tb"⟩
     rfl⟩

/-- C10: `get_task_status` and `update_task_progress` are total functions of
the file state (the bare `except` clauses swallow every exception):
`get_task_status` returns the parsed record exactly when the file exists and
parses, and `None` otherwise; `update_task_progress` returns `False` without
creating or touching any file when the file is missing or unreadable, and
returns `True` exactly when it has rewritten the file with the new progress
(and optional status and appended message). -/
theorem task_status_io_spec (fs : TaskFS) (writeOk : Bool) (taskId : String)
    (progress : Nat) (status message : Option String) (now : String) :
    (fs (task_file taskId) = FileState.missing →
      get_task_status fs taskId = none ∧
      update_task_progress fs writeOk taskId progress status message now =
        (false, fs)) ∧
    (fs (task_file taskId) = FileState.unreadable →
      get_task_status fs taskId = none ∧
      update_task_progress fs writeOk taskId progress status message now =
        (false, fs)) ∧
    (∀ t, fs (task_file taskId) = FileState.content t →
      get_task_status fs taskId = some t ∧
      (writeOk = true →
        update_task_progress fs writeOk taskId progress status message now =
          (true, fsSet fs (task_file taskId)
            (FileState.content (apply_task_update progress status message now t)))) ∧
      (writeOk = false →
        update_task_progress fs writeOk taskId progress status message now =
          (false, fsSet fs (task_file taskId) FileState.unreadable))) := by
  refine ⟨fun h => ⟨?_, ?_⟩, fun h => ⟨?_, ?_⟩,
    fun t h => ⟨?_, fun hw => ?_, fun hw => ?_⟩⟩
  · simp [get_task_status, h]
  · simp [update_task_progress, h]
  · simp [get_task_status, h]
  · simp [update_task_progress, h]
  · simp [get_task_status, h]
  · subst hw; simp [update_task_progress, h]
  · subst hw; simp [update_task_progress, h]

/-- Witness for C10 at a concrete file system holding one task record. -/
theorem task_status_io_spec_witness :
    get_task_status
        (fun n => if n = task_file "t1"
          then FileState.content (initial_task_status "t1" "T0")
          else FileState.missing) "t1" =
      some (initial_task_status "t1" "T0") ∧
    update_task_progress
        (fun n => if n = task_file "t1"
          then FileState.content (initial_task_status "t1" "T0")
          else FileState.missing) true "t1" 40 none (some "step") "T3" =
      (true, fsSet
        (fun n => if n = task_file "t1"
          then FileState.content (initial_task_status "t1" "T0")
          else FileState.missing) (task_file "t1")
        (FileState.content
          (apply_task_update 40 none (some "step") "T3"
            (initial_task_status "t1" "T0")))) :=
  ⟨((task_status_io_spec
      (fun n => if n = task_file "t1"
        then FileState.content (initial_task_status "t1" "T0")
        else FileState.missing) true "t1" 40 none (some "step") "T3").2.2
      (initial_task_status "t1" "T0") (by decide)).1,
   ((task_status_io_spec
      (fun n => if n = task_file "t1"
        then FileState.content (initial_task_status "t1" "T0")
        else FileState.missing) true "t1" 40 none (some "step") "T3").2.2
      (initial_task_status "t1" "T0") (by decide)).2.1 rfl⟩

/-- C7: the status-file accesses are uncoordinated read-modify-write
operations: `update_task_progress` reads the whole file and rewrites it from
its in-memory snapshot with no lock or atomic rename, and interleaving two
such updates can lose one of them — the schedule read1, read2, write2,
write1 ends with only the first update's effect, a final state different
from both serial orders (in which the appended message always survives). -/
theorem status_file_race_spec :
    (∀ (fs : TaskFS) (taskId : String) (progress : Nat)
       (status message : Option String) (now : String) (t : TaskStatus),
      fs (task_file taskId) = FileState.content t →
      update_task_progress fs true taskId progress status message now =
        (true, fsSet fs (task_file taskId)
          (FileState.content (apply_task_update progress status message now t)))) ∧
    rmwRun (apply_task_update 50 none none "T1")
        (apply_task_update 60 none (some "halfway") "T2")
        [RmwEvent.read1, RmwEvent.read2, RmwEvent.write2, RmwEvent.write1]
        (initial_task_status "t" "T0") =
      apply_task_update 50 none none "T1" (initial_task_status "t" "T0") ∧
    (apply_task_update 50 none none "T1" (initial_task_status "t" "T0")).messages =
      none ∧
    (apply_task_update 60 none (some "halfway") "T2"
        (apply_task_update 50 none none "T1" (initial_task_status "t" "T0"))).messages =
      some [("T2", "halfway")] ∧
    (apply_task_update 50 none none "T1"
        (apply_task_update 60 none (some "halfway") "T2"
          (initial_task_status "t" "T0"))).messages =
      some [("T2", "halfway")] := by
  refine ⟨fun fs taskId progress status message now t h => ?_, ?_, ?_, ?_, ?_⟩
  · simp [update_task_progress, h]
  · decide
  · decide
  · decide
  · decide

/-- Witness for C7 at a concrete file system. -/
theorem status_file_race_spec_witness :
    update_task_progress
        (fun _ => FileState.content (initial_task_status "t" "T0")) true "t"
        50 none none "T1" =
      (true, fsSet (fun _ => FileState.content (initial_task_status "t" "T0"))
        (task_file "t")
        (FileState.content
          (apply_task_update 50 none none "T1" (initial_task_status "t" "T0")))) :=
  status_file_race_spec.1 (fun _ => FileState.content (initial_task_status "t" "T0"))
    "t" 50 none none "T1" (initial_task_status "t" "T0") rfl

/-- C8 counterexample: with rating strategy 1 and the default `fixed_rating`
of `None`, `run_batch_reviews` passes `None` — not an integer between 1 and
5 — to `post_review`: an oracle accepting exactly `None` ratings reports one
success. -/
theorem run_batch_reviews_none_rating_counterexample :
    run_batch_reviews
        ⟨[⟨"profile_a", "chrome_profiles/profile_a", "a@mail.com", "T0"⟩],
          30, true, 60, false⟩
        (fun _ rating => rating.isNone) (fun l => l) (fun _ => 0) 1 1 none = 1 ∧
    determine_rating 1 none 0 = none := by
  constructor
  · decide
  · decide

/-- C8 amended: under every rating strategy other than 1 the rating passed
to `post_review` is an integer between 1 and 5; under strategy 1 it is
exactly `fixed_rating`, so the default `fixed_rating` of `None` makes the
passed rating `None`. -/
theorem determine_rating_spec (ratingStrategy : Int) (fixedRating : Option Nat)
    (seed : Nat) :
    (ratingStrategy ≠ 1 →
      ∃ v, determine_rating ratingStrategy fixedRating seed = some v ∧
        1 ≤ v ∧ v ≤ 5) ∧
    determine_rating 1 fixedRating seed = fixedRating := by
  constructor
  · intro h
    by_cases h2 : ratingStrategy = 2
    · refine ⟨randint 1 5 seed, by simp [determine_rating, h, h2], ?_, ?_⟩
      · simp [randint]
      · have := Nat.mod_lt seed (show 0 < 5 - 1 + 1 by norm_num)
        simp only [randint]
        omega
    · refine ⟨weighted_choice_rating seed, by simp [determine_rating, h, h2],
        ?_, ?_⟩ <;>
      · unfold weighted_choice_rating
        split_ifs <;> norm_num
  · simp [determine_rating]

/-- Witness for C8's amended claim at concrete strategies. -/
theorem determine_rating_spec_witness :
    (∃ v, determine_rating 3 none 7 = some v ∧ 1 ≤ v ∧ v ≤ 5) ∧
    determine_rating 1 (some 4) 0 = some 4 :=
  ⟨(determine_rating_spec 3 none 7).1 (by decide),
   (determine_rating_spec 1 (some 4) 0).2⟩

/-! ### Profile-name uniqueness (C5) -/

theorem add_profile_preserves_namesUnique (n p a t : String) (c : Config)
    (h : namesUnique c) : namesUnique (add_profile n p a t c).2 := by
  unfold add_profile
  cases hc : c.profiles.any (fun q => q.name == n) with
  | true => simpa using h
  | false =>
    simp only [List.any_eq_false, beq_iff_eq] at hc
    simp only [Bool.false_eq_true, if_false]
    simp only [namesUnique, List.map_append, List.map_cons, List.map_nil]
    rw [List.nodup_append]
    refine ⟨h, List.nodup_singleton n, ?_⟩
    intro x hx hx1
    obtain ⟨q, hq, rfl⟩ := List.mem_map.mp hx
    simp only [List.mem_singleton] at hx1
    exact hc q hq hx1

theorem removeFirstProfile_sublist (n : String) :
    ∀ l : List Profile, List.Sublist (removeFirstProfile n l) l := by
  intro l
  induction l with
  | nil => simp [removeFirstProfile]
  | cons p ps ih =>
    unfold removeFirstProfile
    cases hp : p.name == n with
    | true => simp [List.sublist_cons_self p ps]
    | false => simpa using List.Sublist.cons₂ p ih

theorem remove_profile_preserves_namesUnique (n : String) (c : Config)
    (h : namesUnique c) : namesUnique (remove_profile n c).2 := by
  unfold remove_profile
  cases hc : c.profiles.any (fun q => q.name == n) with
  | false => simpa using h
  | true =>
    simp only [if_true]
    exact h.sublist ((removeFirstProfile_sublist n c.profiles).map Profile.name)

theorem import_one_preserves_namesUnique (cwd now : String)
    (st : Nat × Config) (acc : Account) (h : namesUnique st.2) :
    namesUnique (import_one cwd now st acc).2 := by
  unfold import_one
  cases hu : acc.username with
  | none => exact h
  | some u =>
    by_cases he : u = ""
    · simp [he, h]
    · simpa [he] using
        add_profile_preserves_namesUnique (profile_name_for u)
          (cwd ++ "/chrome_profiles/" ++ profile_name_for u) u now st.2 h

theorem foldl_import_preserves_namesUnique (cwd now : String)
    (accounts : List Account) :
    ∀ st : Nat × Config, namesUnique st.2 →
      namesUnique (accounts.foldl (import_one cwd now) st).2 := by
  induction accounts with
  | nil => exact fun st h => h
  | cons a as ih =>
    intro st h
    exact ih (import_one cwd now st a)
      (import_one_preserves_namesUnique cwd now st a h)

theorem applyOp_preserves_namesUnique (c : Config) (op : ProfileOp)
    (h : namesUnique c) : namesUnique (applyOp c op) := by
  cases op with
  | add n p a t => exact add_profile_preserves_namesUnique n p a t c h
  | remove n => exact remove_profile_preserves_namesUnique n c h
  | importAccounts accs cwd t =>
    exact foldl_import_preserves_namesUnique cwd t accs (0, c) h
  | updateSettings s => exact h

theorem applyOps_preserves_namesUnique (ops : List ProfileOp) :
    ∀ c : Config, namesUnique c → namesUnique (applyOps ops c) := by
  induction ops with
  | nil => exact fun c h => h
  | cons op rest ih =>
    intro c h
    exact ih (applyOp c op) (applyOp_preserves_namesUnique c op h)

/-- C5: starting from the default configuration, every sequence of
`add_profile`, `remove_profile`, `import_accounts_to_profiles` and
`update_batch_settings` operations yields a configuration in which no two
profiles share a name; `add_profile` returns `False` and leaves the
configuration unchanged when a profile of the given name exists, and
otherwise appends exactly one entry. -/
theorem profile_name_uniqueness_spec (ops : List ProfileOp) :
    namesUnique (applyOps ops create_default_config) ∧
    (∀ (n p a t : String) (c : Config), (∃ q ∈ c.profiles, q.name = n) →
      add_profile n p a t c = (false, c)) ∧
    (∀ (n p a t : String) (c : Config), (∀ q ∈ c.profiles, q.name ≠ n) →
      add_profile n p a t c =
        (true, { c with profiles := c.profiles ++ [⟨n, p, a, t⟩] })) := by
  refine ⟨applyOps_preserves_namesUnique ops create_default_config
    (by simp [namesUnique, create_default_config]), ?_, ?_⟩
  · rintro n p a t c ⟨q, hq, hname⟩
    have hc : c.profiles.any (fun r => r.name == n) = true :=
      List.any_eq_true.mpr ⟨q, hq, by simp [hname]⟩
    simp [add_profile, hc]
  · intro n p a t c hall
    have hc : c.profiles.any (fun r => r.name == n) = false := by
      simp only [List.any_eq_false, beq_iff_eq]
      exact hall
    simp [add_profile, hc]

/-- Witness for C5: a duplicate `add_profile` is rejected and a fresh one
appends exactly one entry. -/
theorem profile_name_uniqueness_spec_witness :
    namesUnique (applyOps
      [ProfileOp.add "p1" "d1" "a1" "t1", ProfileOp.add "p1" "d2" "a2" "t2"]
      create_default_config) ∧
    add_profile "p1" "d2" "a2" "t2"
        ⟨[⟨"p1", "d1", "a1", "t1"⟩], default_batch_settings⟩ =
      (false, ⟨[⟨"p1", "d1", "a1", "t1"⟩], default_batch_settings⟩) ∧
    add_profile "p2" "d2" "a2" "t2"
        ⟨[⟨"p1", "d1", "a1", "t1"⟩], default_batch_settings⟩ =
      (true, ⟨[⟨"p1", "d1", "a1", "t1"⟩, ⟨"p2", "d2", "a2", "t2"⟩],
        default_batch_settings⟩) :=
  ⟨(profile_name_uniqueness_spec
      [ProfileOp.add "p1" "d1" "a1" "t1", ProfileOp.add "p1" "d2" "a2" "t2"]).1,
   (profile_name_uniqueness_spec []).2.1 "p1" "d2" "a2" "t2"
     ⟨[⟨"p1", "d1", "a1", "t1"⟩], default_batch_settings⟩
     ⟨⟨"p1", "d1", "a1", "t1"⟩, by decide, rfl⟩,
   (profile_name_uniqueness_spec []).2.2 "p2" "d2" "a2" "t2"
     ⟨[⟨"p1", "d1", "a1", "t1"⟩], default_batch_settings⟩ (by decide)⟩

/-! ### Batch review selection (C4) -/

theorem flatten_replicate_length (ps : List Profile) (k : Nat) :
    (List.flatten (List.replicate k ps)).length = k * ps.length := by
  induction k with
  | zero => simp
  | succ k ih =>
    rw [List.replicate_succ, List.flatten_cons, List.length_append, ih,
      Nat.succ_mul]
    omega

theorem flatten_replicate_getElem (ps : List Profile) :
    ∀ (k i : Nat), i < k * ps.length →
      (List.flatten (List.replicate k ps))[i]? = ps[i % ps.length]? := by
  intro k
  induction k with
  | zero => intro i h; exact absurd h (by omega)
  | succ k ih =>
    intro i h
    rw [List.replicate_succ, List.flatten_cons]
    by_cases hi : i < ps.length
    · rw [List.getElem?_append, if_pos hi, Nat.mod_eq_of_lt hi]
    · push_neg at hi
      rw [List.getElem?_append, if_neg (by omega)]
      have hb : i - ps.length < k * ps.length := by
        rw [Nat.succ_mul] at h
        omega
      rw [ih (i - ps.length) hb]
      rw [Nat.mod_eq_sub_mod hi]

theorem num_lt_div_succ_mul (numReviews n : Nat) (hn : 0 < n) :
    numReviews < (numReviews / n + 1) * n := by
  have h2 := Nat.mod_lt numReviews hn
  rw [Nat.succ_mul]
  nlinarith [Nat.div_add_mod numReviews n]

theorem select_profiles_length (numReviews : Nat) (ps : List Profile)
    (hps : ps ≠ []) : (select_profiles numReviews ps).length = numReviews := by
  have hn : 0 < ps.length := List.length_pos.mpr hps
  unfold select_profiles
  by_cases h : numReviews ≤ ps.length
  · rw [if_pos h, List.length_take]
    omega
  · rw [if_neg h, List.length_take, flatten_replicate_length]
    have := num_lt_div_succ_mul numReviews ps.length hn
    omega

theorem select_profiles_cyclic (numReviews : Nat) (ps : List Profile)
    (hps : ps ≠ []) (i : Nat) (hi : i < numReviews) :
    (select_profiles numReviews ps)[i]? = ps[i % ps.length]? := by
  have hn : 0 < ps.length := List.length_pos.mpr hps
  unfold select_profiles
  by_cases h : numReviews ≤ ps.length
  · rw [if_pos h, List.getElem?_take, if_pos hi, Nat.mod_eq_of_lt (by omega)]
  · rw [if_neg h, List.getElem?_take, if_pos hi]
    exact flatten_replicate_getElem ps (numReviews / ps.length + 1) i
      (lt_of_lt_of_le hi (le_of_lt (num_lt_div_succ_mul numReviews ps.length hn)))

/-- C4: for `num_reviews >= 1`, `run_batch_reviews` selects (before the
optional shuffle) exactly the first `num_reviews` elements of the profile
list repeated cyclically — it has length `num_reviews` and its `i`-th entry
is profile `i mod n` — attempts one review per selected profile, and returns
the count of attempts for which `post_review` returned success; with an
empty profile list it returns `0` without posting anything. -/
theorem run_batch_reviews_spec (cfg : BatchConfig)
    (postReview : Profile → Option Nat → Bool)
    (shuffle : List Profile → List Profile) (rng : Nat → Nat)
    (numReviews : Nat) (ratingStrategy : Int) (fixedRating : Option Nat)
    (hshuffle : ∀ l, List.Perm (shuffle l) l) (hnum : 1 ≤ numReviews) :
    (cfg.profiles = [] →
      run_batch_reviews cfg postReview shuffle rng numReviews ratingStrategy
        fixedRating = 0) ∧
    (cfg.profiles ≠ [] →
      (select_profiles numReviews cfg.profiles).length = numReviews ∧
      (∀ i, i < numReviews →
        (select_profiles numReviews cfg.profiles)[i]? =
          cfg.profiles[i % cfg.profiles.length]?) ∧
      ∃ attempted : List Profile,
        List.Perm attempted (select_profiles numReviews cfg.profiles) ∧
        run_batch_reviews cfg postReview shuffle rng numReviews ratingStrategy
            fixedRating =
          attempted.enum.countP (fun ip =>
            postReview ip.2
              (determine_rating ratingStrategy fixedRating (rng ip.1)))) := by
  constructor
  · intro h
    simp [run_batch_reviews, h]
  · intro h
    refine ⟨select_profiles_length numReviews cfg.profiles h,
      fun i hi => select_profiles_cyclic numReviews cfg.profiles h i hi, ?_⟩
    refine ⟨if cfg.randomize_order
      then shuffle (select_profiles numReviews cfg.profiles)
      else select_profiles numReviews cfg.profiles, ?_, ?_⟩
    · by_cases hr : cfg.randomize_order
      · simpa [hr] using hshuffle (select_profiles numReviews cfg.profiles)
      · simp [hr]
    · have hne : cfg.profiles.isEmpty = false := by
        cases hp : cfg.profiles with
        | nil => exact absurd hp h
        | cons a l => simp [hp]
      simp [run_batch_reviews, hne]

/-- Witness for C4: three reviews over a two-profile list select the
profiles cyclically and count the successes. -/
theorem run_batch_reviews_spec_witness :
    ∃ attempted : List Profile,
      List.Perm attempted (select_profiles 3
        [⟨"p1", "d1", "a1", "t1"⟩, ⟨"p2", "d2", "a2", "t2"⟩]) ∧
      run_batch_reviews
          ⟨[⟨"p1", "d1", "a1", "t1"⟩, ⟨"p2", "d2", "a2", "t2"⟩], 30, true, 60,
            false⟩
          (fun q _ => q.name == "p1") (fun l => l) (fun _ => 0) 3 3 none =
        attempted.enum.countP (fun ip =>
          (fun (q : Profile) (_ : Option Nat) => q.name == "p1") ip.2
            (determine_rating 3 none ((fun _ => 0) ip.1))) :=
  ((run_batch_reviews_spec
      ⟨[⟨"p1", "d1", "a1", "t1"⟩, ⟨"p2", "d2", "a2", "t2"⟩], 30, true, 60,
        false⟩
      (fun q _ => q.name == "p1") (fun l => l) (fun _ => 0) 3 3 none
      (fun l => List.Perm.refl l) (by decide)).2 (by decide)).2.2

/-! ### Pattern order of the direct-URL extractor (C2) -/

theorem stripLit_isSuffix :
    ∀ (pat l r : List Char), stripLit pat l = some r → List.IsSuffix r l := by
  intro pat
  induction pat with
  | nil =>
    intro l r h
    simp only [stripLit, Option.some.injEq] at h
    subst h
    exact List.suffix_rfl
  | cons p ps ih =>
    intro l r h
    cases l with
    | nil => simp [stripLit] at h
    | cons c cs =>
      unfold stripLit at h
      by_cases hp : p = c
      · rw [if_pos hp] at h
        exact (ih cs r h).trans (List.suffix_cons c cs)
      · rw [if_neg hp] at h
        exact absurd h (by simp)

theorem firstMatch_ne_none_of_suffix (step : List Char → Option (List Char)) :
    ∀ (l l' v : List Char), List.IsSuffix l' l → step l' = some v →
      firstMatch step l ≠ none := by
  intro l
  induction l with
  | nil =>
    intro l' v hsuf h
    have he : l' = [] := List.suffix_nil.mp hsuf
    subst he
    simp [firstMatch, h]
  | cons c cs ih =>
    intro l' v hsuf h
    unfold firstMatch
    cases hstep : step (c :: cs) with
    | some r => simp
    | none =>
      rcases List.suffix_cons_iff.mp hsuf with h1 | h1
      · subst h1
        rw [h] at hstep
        exact absurd hstep (by simp)
      · simpa using ih l' v h1 h

theorem firstMatch_some_suffix (step : List Char → Option (List Char)) :
    ∀ (l v : List Char), firstMatch step l = some v →
      ∃ l', List.IsSuffix l' l ∧ step l' = some v := by
  intro l
  induction l with
  | nil =>
    intro v h
    exact ⟨[], List.suffix_rfl, by simpa [firstMatch] using h⟩
  | cons c cs ih =>
    intro v h
    unfold firstMatch at h
    cases hstep : step (c :: cs) with
    | some r =>
      rw [hstep] at h
      exact ⟨c :: cs, List.suffix_rfl, hstep.trans h⟩
    | none =>
      rw [hstep] at h
      obtain ⟨l', hs, he⟩ := ih v h
      exact ⟨l', hs.trans (List.suffix_cons c cs), he⟩

theorem chijBangAt_implies_chijAt (l s : List Char)
    (h : chijBangAt l = some s) :
    ∃ r, List.IsSuffix r l ∧ chijAt r = some s := by
  unfold chijBangAt at h
  cases hs : stripLit (sl "!1s") l with
  | none =>
    rw [hs] at h
    exact absurd h (by simp)
  | some rest =>
    rw [hs] at h
    exact ⟨rest, stripLit_isSuffix (sl "!1s") l rest hs, h⟩

/-- C2: `extract_place_id_from_url` in `direct_review_url.py` tries its URL
patterns in a fixed order — `place_id=` parameter, `placeid=` parameter,
`1s`-prefixed `data=` segment, bare `ChIJ` token, `!1s` hexadecimal pair,
`!1s` `ChIJ` token — and returns the capture of the first pattern that
matches, computed purely from the URL string; and whenever the bare-`ChIJ`
pattern matches with no earlier pattern matching, its capture alone
determines the result — in fact a `!1s`-anchored `ChIJ` match always implies
a bare-`ChIJ` match, so that last pattern can never fire. -/
theorem extract_place_id_regex_spec (url : String) :
    extract_place_id_from_url_regex url =
      (firstSome [firstMatch placeIdParamAt url.toList,
        firstMatch placeidParamAt url.toList, dataSegmentExtract url.toList,
        firstMatch chijAt url.toList, firstMatch cidBangLowerAt url.toList,
        firstMatch chijBangAt url.toList]).map String.mk ∧
    (∀ p, firstMatch placeIdParamAt url.toList = none →
      firstMatch placeidParamAt url.toList = none →
      dataSegmentExtract url.toList = none →
      firstMatch chijAt url.toList = some p →
      extract_place_id_from_url_regex url = some (String.mk p)) ∧
    (∀ s, firstMatch chijBangAt url.toList = some s →
      firstMatch chijAt url.toList ≠ none) := by
  refine ⟨?_, ?_, ?_⟩
  · unfold extract_place_id_from_url_regex firstSome
    cases h1 : firstMatch placeIdParamAt url.toList <;>
      cases h2 : firstMatch placeidParamAt url.toList <;>
        cases h3 : dataSegmentExtract url.toList <;>
          cases h4 : firstMatch chijAt url.toList <;>
            cases h5 : firstMatch cidBangLowerAt url.toList <;>
              cases h6 : firstMatch chijBangAt url.toList <;>
                simp [firstSome]
  · intro p h1 h2 h3 h4
    unfold extract_place_id_from_url_regex
    rw [h1, h2, h3, h4]
  · intro s h6
    obtain ⟨l', hsuf, hstep⟩ := firstMatch_some_suffix chijBangAt url.toList s h6
    obtain ⟨r, hrsuf, hchij⟩ := chijBangAt_implies_chijAt l' s hstep
    exact firstMatch_ne_none_of_suffix chijAt url.toList r s
      (hrsuf.trans hsuf) hchij

/-- Witness for C2 at a concrete URL whose only matching pattern is the bare
`ChIJ` token. -/
theorem extract_place_id_regex_spec_witness :
    extract_place_id_from_url_regex "maps/place/x/ChIJab12cd" =
      some (String.mk (sl "ChIJab12cd")) :=
  (extract_place_id_regex_spec "maps/place/x/ChIJab12cd").2.1 (sl "ChIJab12cd")
    (by decide) (by decide) (by decide) (by decide)

/-! ### The two extractors (C3) -/

/-- C3 counterexample: on a URL whose only place-ID pattern is a bare `ChIJ`
token — a pattern the `app.py` extractor does not have — the
`direct_review_url.py` regex portion returns the token while the `app.py`
extractor returns `None`, so the two extractors are not equivalent on URLs
where the latter's regex patterns match. -/
theorem extractors_differ_on_bare_chij :
    extract_place_id_from_url_regex "ChIJtest123" = some "ChIJtest123" ∧
    app_extract_place_id_from_url "ChIJtest123" = none ∧
    app_extract_place_id_from_url "ChIJtest123" ≠
      extract_place_id_from_url_regex "ChIJtest123" := by
  refine ⟨?_, ?_, ?_⟩ <;> decide

/-- C3 amended: the two extractors do agree — both returning `None` — on
every URL on which none of either extractor's patterns matches; on URLs
where the `direct_review_url.py` regex patterns match they can disagree
(for example on bare `ChIJ` tokens, which only `direct_review_url.py`
recognizes). -/
theorem extractors_agree_when_no_pattern_matches (url : String)
    (ha1 : firstMatch appPlaceIdAt url.toList = none)
    (ha2 : firstMatch appPlaceidAt url.toList = none)
    (ha3 : firstMatch cidPairAt url.toList = none)
    (ha4 : firstMatch dataPat1At url.toList = none)
    (ha5 : firstMatch dataPat2At url.toList = none)
    (ha6 : parsedCidSearch url.toList = none)
    (hd1 : firstMatch placeIdParamAt url.toList = none)
    (hd2 : firstMatch placeidParamAt url.toList = none)
    (hd3 : dataSegmentExtract url.toList = none)
    (hd4 : firstMatch chijAt url.toList = none)
    (hd5 : firstMatch cidBangLowerAt url.toList = none)
    (hd6 : firstMatch chijBangAt url.toList = none) :
    app_extract_place_id_from_url url = none ∧
    extract_place_id_from_url_regex url = none ∧
    app_extract_place_id_from_url url = extract_place_id_from_url_regex url := by
  have h1 : app_extract_place_id_from_url url = none := by
    unfold app_extract_place_id_from_url
    rw [ha1, ha2, ha3, ha4, ha5, ha6]
  have h2 : extract_place_id_from_url_regex url = none := by
    unfold extract_place_id_from_url_regex
    rw [hd1, hd2, hd3, hd4, hd5, hd6]
  exact ⟨h1, h2, h1.trans h2.symm⟩

/-- Witness for C3's amended claim at a URL with no place-ID pattern at
all. -/
theorem extractors_agree_witness :
    app_extract_place_id_from_url "https://www.example.com/hello" = none ∧
    extract_place_id_from_url_regex "https://www.example.com/hello" = none ∧
    app_extract_place_id_from_url "https://www.example.com/hello" =
      extract_place_id_from_url_regex "https://www.example.com/hello" :=
  extractors_agree_when_no_pattern_matches "https://www.example.com/hello"
    (by decide) (by decide) (by decide) (by decide) (by decide) (by decide)
    (by decide) (by decide) (by decide) (by decide) (by decide) (by decide)

end GRG
